import Mathlib

/-!
Verification of the scalar-file parser, metric aggregator and energy model of
the python-scripts-omnetpp repository, shallowly embedded in Lean.

Conventions of the embedding:
* Python float values are modelled by `PyVal`: finite values as exact
  rationals, plus positive/negative infinity and NaN.  Rounding of in-range
  literals is not modelled (finite values stay exact rationals); overflow of a
  literal to an infinity is modelled at the IEEE-754 double boundary
  2^1024 - 2^970, the least magnitude that rounds to infinity under
  round-to-nearest-even, which Python's float() returns without raising.
* Real-valued formulas of the energy model (powers of 10 with real exponents,
  log10) are modelled over the real numbers with Real.rpow / Real.logb.
* The file system is modelled as a partial map from paths to file contents;
  a raised-and-not-caught Python exception is an Except.error.
* String helpers (strip, startswith, lower, substring test, line split) are
  written as structural recursions over character lists so that the parser is
  fully executable inside Lean; they model the corresponding Python string
  operations on the ASCII data this repository processes.
-/

attribute [local semireducible] Rat.add Rat.mul Rat.inv Rat.sub

set_option exponentiation.threshold 1100

set_option maxRecDepth 4000

/-- A Python float: a finite value (kept as an exact rational), one of the two
infinities, or NaN. -/
inductive PyVal where
  | fin (q : ℚ)
  | pinf
  | ninf
  | nan
deriving DecidableEq, Repr

/-- Addition of Python floats, as used by Python's sum(). -/
def pyAdd : PyVal → PyVal → PyVal
  | .nan, _ => .nan
  | _, .nan => .nan
  | .fin a, .fin b => .fin (a + b)
  | .fin _, .pinf => .pinf
  | .fin _, .ninf => .ninf
  | .pinf, .fin _ => .pinf
  | .ninf, .fin _ => .ninf
  | .pinf, .pinf => .pinf
  | .ninf, .ninf => .ninf
  | .pinf, .ninf => .nan
  | .ninf, .pinf => .nan

/-- Python's sum() over a list of floats (initial accumulator 0). -/
def pySum (l : List PyVal) : PyVal := l.foldl pyAdd (.fin 0)

/-- Division of a Python float by a positive integer (a list length). -/
def pyDivNat : PyVal → ℕ → PyVal
  | .fin q, n => .fin (q / n)
  | .pinf, _ => .pinf
  | .ninf, _ => .ninf
  | .nan, _ => .nan

/-- Is this float finite?  Mirrors math.isfinite. -/
def PyVal.isFinite : PyVal → Bool
  | .fin _ => true
  | _ => false

/-- The value of a run of decimal digits. -/
def digitsToNat (ds : List Char) : ℕ :=
  ds.foldl (fun a c => 10 * a + (c.toNat - 48)) 0

/-- The rational 10^n, computed through natural-number power. -/
def pow10 (n : ℕ) : ℚ := ((10 ^ n : ℕ) : ℚ)

/-- Exact value of a Python float literal over the characters that can reach
float() in these scripts: an optional sign, an integer part, an optional
fraction, an optional exponent.  none models a ValueError. -/
def pyFloatQ (cs : List Char) : Option ℚ :=
  let signSplit : Bool × List Char :=
    match cs with
    | '-' :: r => (true, r)
    | '+' :: r => (false, r)
    | _ => (false, cs)
  let neg := signSplit.1
  let s1 := signSplit.2
  let ipSplit := s1.span Char.isDigit
  let ip := ipSplit.1
  let s2 := ipSplit.2
  let fracSplit : List Char × List Char :=
    match s2 with
    | '.' :: r => r.span Char.isDigit
    | _ => ([], s2)
  let fp := fracSplit.1
  let s3 := match s2 with
    | '.' :: _ => fracSplit.2
    | _ => s2
  if ip.isEmpty && fp.isEmpty then none
  else
    let mant : ℚ := (digitsToNat (ip ++ fp) : ℚ) / pow10 fp.length
    let sm := if neg then -mant else mant
    match s3 with
    | [] => some sm
    | e :: r =>
      if e = 'e' ∨ e = 'E' then
        let esignSplit : Bool × List Char :=
          match r with
          | '-' :: r2 => (true, r2)
          | '+' :: r2 => (false, r2)
          | _ => (false, r)
        let edSplit := esignSplit.2.span Char.isDigit
        if edSplit.1.isEmpty || !edSplit.2.isEmpty then none
        else
          -- the value times 10^exponent, the exponent's sign deciding between
          -- a multiplication and an exact division
          if esignSplit.1 then some (sm / pow10 (digitsToNat edSplit.1))
          else some (sm * pow10 (digitsToNat edSplit.1))
      else none

/-- Least magnitude that IEEE-754 binary64 round-to-nearest-even rounds to
infinity: 2^1024 - 2^970. -/
def DBL_OVF : ℚ := ((2 ^ 1024 - 2 ^ 970 : ℕ) : ℚ)

/-- Python's float() on a numeric token: none models a raised ValueError;
an in-range literal gives its exact value; an out-of-range literal gives an
infinity (Python returns inf for such literals instead of raising). -/
def pyFloat (s : String) : Option PyVal :=
  (pyFloatQ s.toList).map fun q =>
    if DBL_OVF ≤ q then PyVal.pinf
    else if q ≤ -DBL_OVF then PyVal.ninf
    else PyVal.fin q

/-- Python's str.lower on the ASCII data these scripts process. -/
def pyLower (s : String) : String := String.mk (s.toList.map Char.toLower)

/-- Is needle a contiguous substring of the list (Python's "needle in hay"). -/
def listIsSub (needle : List Char) : List Char → Bool
  | [] => needle.isEmpty
  | c :: cs => needle.isPrefixOf (c :: cs) || listIsSub needle cs

/-- Python's "needle in hay" on strings. -/
def pyIn (needle hay : String) : Bool := listIsSub needle.toList hay.toList

/-- Python's str.strip(): drop leading and trailing whitespace. -/
def pyStrip (s : String) : String :=
  String.mk (((s.toList.dropWhile Char.isWhitespace).reverse.dropWhile Char.isWhitespace).reverse)

/-- Python's str.startswith. -/
def pyStartsWith (s pre : String) : Bool := pre.toList.isPrefixOf s.toList

/-- Split a file's text into lines at newline characters (the lines a Python
"for line in f" iterates over, once stripped of the trailing newline that
pyStrip removes anyway). -/
def splitLinesAux : List Char → List Char → List String
  | [], acc => [String.mk acc.reverse]
  | '\n' :: r, acc => String.mk acc.reverse :: splitLinesAux r []
  | c :: r, acc => splitLinesAux r (c :: acc)

/-- All lines of a file's text. -/
def splitLines (s : String) : List String := splitLinesAux s.toList []

namespace results

/-- results.py, dataclass ScalarRecord (line 44): one scalar measurement. -/
structure ScalarRecord where
  module : String
  name : String
  value : PyVal
  unit : Option String
deriving DecidableEq, Repr

/-- The character class [-\d.eE] of the value group of SCALAR_LINE (line 42). -/
def scalarNumClass (c : Char) : Bool :=
  c = '-' || c.isDigit || c = '.' || c = 'e' || c = 'E'

/-- results.py line 42, SCALAR_LINE.match on a stripped line: the keyword
"scalar", whitespace, a module token (maximal nonempty run of non-whitespace),
whitespace, a name token, whitespace, a value token (maximal nonempty run over
the class [-\d.eE]), then optionally whitespace and a unit token.  re.match
anchors at the start only, so trailing text after the groups is ignored. -/
def scalarMatch (s : String) : Option (String × String × String × Option String) :=
  let cs := s.toList
  if "scalar".toList.isPrefixOf cs then
    let r0 := cs.drop 6
    let p1 := r0.span Char.isWhitespace
    let p2 := p1.2.span (fun c => !c.isWhitespace)
    let p3 := p2.2.span Char.isWhitespace
    let p4 := p3.2.span (fun c => !c.isWhitespace)
    let p5 := p4.2.span Char.isWhitespace
    let p6 := p5.2.span scalarNumClass
    if p1.1.isEmpty || p2.1.isEmpty || p3.1.isEmpty || p4.1.isEmpty
        || p5.1.isEmpty || p6.1.isEmpty then none
    else
      let p7 := p6.2.span Char.isWhitespace
      let p8 := p7.2.span (fun c => !c.isWhitespace)
      let unit := if p7.1.isEmpty || p8.1.isEmpty then none else some (String.mk p8.1)
      some (String.mk p2.1, String.mk p4.1, String.mk p6.1, unit)
  else none

/-- One iteration of the loop of parse_sca_file (results.py lines 54-65): skip
a line that does not start with "scalar" or does not match SCALAR_LINE; on a
match, float() the value token, and on a ValueError drop the line (continue);
otherwise emit the ScalarRecord. -/
def parseScaLine (line : String) : Option ScalarRecord :=
  if pyStartsWith line "scalar" then
    match scalarMatch (pyStrip line) with
    | some (m, n, v, u) =>
      match pyFloat v with
      | some pv => some ⟨m, n, pv, u⟩
      | none => none
    | none => none
  else none

/-- The body of parse_sca_file over the lines of an already-opened file. -/
def parse_sca_lines (lines : List String) : List ScalarRecord :=
  lines.filterMap parseScaLine

/-- results.py parse_sca_file (lines 51-66): open the file - an absent file
raises FileNotFoundError, uncaught - and collect the scalar records of its
lines. -/
def parse_sca_file (fs : String → Option String) (path : String) :
    Except String (List ScalarRecord) :=
  match fs path with
  | none => Except.error "FileNotFoundError"
  | some text => Except.ok (parse_sca_lines (splitLines text))

/-- results.py ALIASES (lines 20-34), the four metric families. -/
def ALIASES_throughput : List String :=
  ["ReceivedThroughput", "receivedThroughput", "throughput",
   "ueThroughput", "avgThroughput", "cellThroughput", "app.rxThroughput"]

/-- results.py ALIASES, family sinr. -/
def ALIASES_sinr : List String :=
  ["SINR", "avgSINR", "meanSINR", "phy.sinr", "gNB_sinr", "ueSINR", "rsrpSinr"]

/-- results.py ALIASES, family cn_procdemand. -/
def ALIASES_cn_procdemand : List String :=
  ["CNProcDemand", "CnProcDemand", "cnProcDemand", "coreProcDemand", "procDemand"]

/-- results.py ALIASES, family tx_power. -/
def ALIASES_tx_power : List String :=
  ["eNodeBTxPower", "gNBTxPower", "txPower", "phy.txPower", "eNBtxPower"]

/-- The membership test of the loop of agg_metric (results.py line 73),
verbatim: the lowered name is in the lowered candidate list, or some lowered
candidate is a substring of the lowered name. -/
def matchCond (cand : List String) (r : ScalarRecord) : Bool :=
  let n := pyLower r.name
  cand.contains n || cand.any (fun c => pyIn c n)

/-- results.py agg_metric (lines 68-77): average of the values of the records
whose name matches a candidate alias; None when nothing matches.  The float()
wrapper of the source is the identity on a float and is not repeated here. -/
def agg_metric (records : List ScalarRecord) (candidates : List String) :
    Option PyVal :=
  let cand := candidates.map pyLower
  let vals := records.foldl
    (fun acc r => if matchCond cand r then acc ++ [r.value] else acc) []
  if vals.isEmpty then none else some (pyDivNat (pySum vals) vals.length)

/-- Two-digit greedy capture of the group (\d{1,2}) of REGEX_POT_IN_PATH. -/
def grabPotDigits : List Char → Option ℕ
  | [] => none
  | c1 :: rest =>
    if c1.isDigit then
      match rest with
      | c2 :: _ =>
        if c2.isDigit then some (10 * (c1.toNat - 48) + (c2.toNat - 48))
        else some (c1.toNat - 48)
      | [] => some (c1.toNat - 48)
    else none

/-- Attempt of REGEX_POT_IN_PATH (results.py line 37) at one position: the
alternation Pot | Potencia | Power, case-insensitive, in the source's order,
each followed by one or two digits. -/
def tryPotAt (cs : List Char) : Option ℕ :=
  let lc := cs.map Char.toLower
  if "pot".toList.isPrefixOf lc then
    match grabPotDigits (cs.drop 3) with
    | some n => some n
    | none =>
      if "potencia".toList.isPrefixOf lc then grabPotDigits (cs.drop 8)
      else none
  else if "power".toList.isPrefixOf lc then grabPotDigits (cs.drop 5)
  else none

/-- re.search of REGEX_POT_IN_PATH: the leftmost position where the pattern
matches, scanning the whole string. -/
def potSearch : List Char → Option ℕ
  | [] => none
  | c :: cs =>
    match tryPotAt (c :: cs) with
    | some n => some n
    | none => potSearch cs

/-- REGEX_POT_IN_PATH.search over a path string (results.py lines 37, 91). -/
def pot_in_path (path : String) : Option ℕ := potSearch path.toList

/-- results.py watts_to_dbm (lines 79-80). -/
noncomputable def watts_to_dbm (w : ℚ) : ℝ :=
  10 * Real.logb 10 (max (w : ℝ) 1e-12 / 1e-3)

/-- results.py dbm_to_watts (lines 113-114). -/
noncomputable def dbm_to_watts (dbm : ℝ) : ℝ := (10 : ℝ) ^ (dbm / 10) * 1e-3

/-- results.py infer_power_dbm (lines 82-97): prefer a tx-power scalar from
the records, treating a value above 1.0 as watts and converting it to dBm;
otherwise search the whole path string for REGEX_POT_IN_PATH.  When the
tx-power aggregate is a non-finite float the Python code would return a
non-finite float (watts_to_dbm(inf) or nan); that branch is outside this
real-valued model and is mapped to none - no claim depends on it. -/
noncomputable def infer_power_dbm (path : String) (records : List ScalarRecord) :
    Option ℝ :=
  match agg_metric records ALIASES_tx_power with
  | some (PyVal.fin tx) =>
    some (if 1 < tx then watts_to_dbm tx else ((tx : ℚ) : ℝ))
  | some _ => none
  | none => (pot_in_path path).map fun n => ((n : ℕ) : ℝ)

/-- results.py dataclass EnergyCalib (lines 104-111). -/
structure EnergyCalib where
  P_idle_base : ℝ
  k_idle : ℝ
  alpha_base : ℝ
  k_alpha : ℝ
  beta_base : ℝ
  k_beta : ℝ

/-- results.py gnb_power_energy (lines 116-123): average gNB power and total
energy of the calibrated affine model. -/
noncomputable def gnb_power_energy (ptx_dbm dproc_gops : ℝ) (n_ues : ℤ)
    (tsim : ℝ) (calib : EnergyCalib) : ℝ × ℝ :=
  let ptx_w := dbm_to_watts ptx_dbm
  let P_idle := calib.P_idle_base + calib.k_idle * ptx_w
  let alpha := calib.alpha_base + calib.k_alpha * ptx_w
  let beta := calib.beta_base + calib.k_beta * ptx_w
  let P_avg := P_idle + alpha * dproc_gops + beta * (n_ues : ℝ)
  (P_avg, P_avg * tsim)

/-- results.py main, line 207: the energy-efficiency column divides the
throughput by E_total directly, with no floor on the denominator. -/
noncomputable def EE_throughput_per_J (throughput E_total : ℝ) : ℝ :=
  throughput / E_total

/-- Modelled from the spec's words for comparison with agg_metric (claim C9):
a record belongs to family F when its name, lowercased, exactly equals or
contains some alias of F lowercased. -/
def specFamilyMatches (name : String) (cands : List String) : Bool :=
  (cands.map pyLower).any fun c => pyLower name == c || pyIn c (pyLower name)

end results

namespace analisar

/-- analisar_sca.py dbm_to_watts (lines 50-52): P[W] = 10^((dBm-30)/10). -/
noncomputable def dbm_to_watts (p_dbm : ℝ) : ℝ := (10 : ℝ) ^ ((p_dbm - 30) / 10)

/-- analisar_sca.py _finite (lines 54-55): the finite values of a list of
floats, in order (math.isfinite drops NaN and the infinities). -/
def finiteVals (vals : List PyVal) : List ℚ :=
  vals.filterMap fun v => match v with | .fin q => some q | _ => none

/-- analisar_sca.py safe_mean (lines 71-73): the mean of the finite values,
or the default when none remain. -/
def safe_mean (values : List PyVal) (default : ℚ) : ℚ :=
  let vals := finiteVals values
  if vals.isEmpty then default else vals.sum / vals.length

/-- The energy parameters read by compute_power_energy_eff from its cfg dict
(analisar_sca.py lines 128-133, 141-146): each plain field holds the value of
cfg["general"].get(key, default) - the dict read with its documented default -
and the two limits are None when absent from cfg["limits"]. -/
structure EnergyCfg where
  idle_power_w : ℝ
  alpha : ℝ
  beta : ℝ
  gamma : ℝ
  sim_time_s : ℝ
  delay_ref_ms : ℝ
  min_power_w : Option ℝ
  max_power_w : Option ℝ

/-- The dict returned by compute_power_energy_eff (lines 153-160). -/
structure EnergyOut where
  P_tot_W : ℝ
  E_tot_J : ℝ
  E_tot_kWh : ℝ
  eff_mbps_per_joule : ℝ
  P_tx_W : ℝ
  sim_time_s : ℝ

/-- analisar_sca.py compute_power_energy_eff (lines 122-160): total power
P_idle + alpha*D_proc + beta*N_UE + gamma*P_tx_W, optionally clamped to the
configured min/max, energy over the simulation time, and efficiency with the
denominator floored at 1e-12.  The Python idiom (x or 0.0) on a possibly-None
float input is Option.getD 0. -/
noncomputable def compute_power_energy_eff (power_dbm proc_sum_gops
    ue_active_mean thp_sum_mbps : Option ℝ) (cfg : EnergyCfg) : EnergyOut :=
  let P_tx_W := dbm_to_watts (power_dbm.getD 0)
  let base := cfg.idle_power_w + cfg.alpha * proc_sum_gops.getD 0
    + cfg.beta * ue_active_mean.getD 0 + cfg.gamma * P_tx_W
  let p1 := match cfg.min_power_w with
    | some m => max base m
    | none => base
  let P_tot_W := match cfg.max_power_w with
    | some m => min p1 m
    | none => p1
  let E_tot_J := P_tot_W * cfg.sim_time_s
  ⟨P_tot_W, E_tot_J, E_tot_J / 3600000,
   thp_sum_mbps.getD 0 / max P_tot_W 1e-12, P_tx_W, cfg.sim_time_s⟩

end analisar

namespace calculate

/-- calculate.py dbm_to_watts (lines 39-40). -/
noncomputable def dbm_to_watts (dbm : ℝ) : ℝ := (10 : ℝ) ^ (dbm / 10) * 1e-3

/-- calculate.py dataclass Scenario (lines 46-68). -/
structure Scenario where
  name : String
  D_proc : ℝ
  N_UE : ℤ
  T_sim : ℝ
  potencias_dbm : List ℝ
  throughput_mbps : List ℝ
  gamma : ℝ
  P_idle : ℝ
  alpha : ℝ
  beta : ℝ
  Pidle_base : Option ℝ
  k_idle : Option ℝ
  alpha_base : Option ℝ
  k_alpha : Option ℝ
  beta_base : Option ℝ
  k_beta : Option ℝ

/-- calculate.py Scenario.uses_extended (lines 70-73): all six extended
fields are supplied. -/
def Scenario.uses_extended (s : Scenario) : Bool :=
  s.Pidle_base.isSome && s.k_idle.isSome && s.alpha_base.isSome
    && s.k_alpha.isSome && s.beta_base.isSome && s.k_beta.isSome

/-- The dict returned by energy_components (calculate.py line 89). -/
structure EnergyComponents where
  P_tx_W : ℝ
  P_idle : ℝ
  P_proc : ℝ
  P_ue : ℝ
  P_tx : ℝ
  P_gnb : ℝ

/-- calculate.py energy_components (lines 75-89).  In the extended branch the
six optional fields are all known to be some; Option.getD 0 reads the value
there and is never reached with none. -/
noncomputable def energy_components (scn : Scenario) (p_dbm : ℝ) :
    EnergyComponents :=
  let P_tx := dbm_to_watts p_dbm
  let Pidle := if scn.uses_extended
    then scn.Pidle_base.getD 0 + scn.k_idle.getD 0 * P_tx else scn.P_idle
  let alpha := if scn.uses_extended
    then scn.alpha_base.getD 0 + scn.k_alpha.getD 0 * P_tx else scn.alpha
  let beta := if scn.uses_extended
    then scn.beta_base.getD 0 + scn.k_beta.getD 0 * P_tx else scn.beta
  let P_proc := alpha * scn.D_proc
  let P_ue := beta * (scn.N_UE : ℝ)
  let P_tx_c := scn.gamma * P_tx
  ⟨P_tx, Pidle, P_proc, P_ue, P_tx_c, Pidle + P_proc + P_ue + P_tx_c⟩

end calculate

namespace functions

/-- Match a literal at the head of the text. -/
def matchLit (lit : List Char) (cs : List Char) : Option (List Char) :=
  if lit.isPrefixOf cs then some (cs.drop lit.length) else none

/-- Match the group (\d+): a maximal nonempty digit run and its value. -/
def matchNat (cs : List Char) : Option (ℕ × List Char) :=
  let p := cs.span Char.isDigit
  if p.1.isEmpty then none else some (digitsToNat p.1, p.2)

/-- Match the group (\d+(?:\.\d+)?): digits, then optionally a dot followed by
at least one digit (a dot with no digit after it is left unconsumed). -/
def matchNum (cs : List Char) : Option (ℚ × List Char) :=
  let p := cs.span Char.isDigit
  if p.1.isEmpty then none
  else
    match p.2 with
    | '.' :: r2 =>
      let f := r2.span Char.isDigit
      if f.1.isEmpty then some ((digitsToNat p.1 : ℚ), p.2)
      else some ((digitsToNat (p.1 ++ f.1) : ℚ) / (10 : ℚ) ^ f.1.length, f.2)
    | _ => some ((digitsToNat p.1 : ℚ), p.2)

/-- functions.py lines 14-16: one match of the pattern
scalar MultiCell_SA_5cells_12BSs.ue[(\d+)].app[0] cbrReceivedThroughtput:mean
(\d+(?:\.\d+)?) at the head of the text. -/
def matchUEReceived (cs : List Char) : Option ((ℕ × ℚ) × List Char) :=
  (matchLit "scalar MultiCell_SA_5cells_12BSs.ue[".toList cs).bind fun r1 =>
  (matchNat r1).bind fun p2 =>
  (matchLit "].app[0] cbrReceivedThroughtput:mean ".toList p2.2).bind fun r3 =>
  (matchNum r3).map fun p4 => ((p2.1, p4.1), p4.2)

/-- functions.py lines 23-25: one match of the pattern
scalar MultiCell_SA_5cells_12BSs.server.app[(\d+)] cbrGeneratedThroughtput:mean
(\d+(?:\.\d+)?) at the head of the text. -/
def matchServerGenerated (cs : List Char) : Option ((ℕ × ℚ) × List Char) :=
  (matchLit "scalar MultiCell_SA_5cells_12BSs.server.app[".toList cs).bind fun r1 =>
  (matchNat r1).bind fun p2 =>
  (matchLit "] cbrGeneratedThroughtput:mean ".toList p2.2).bind fun r3 =>
  (matchNum r3).map fun p4 => ((p2.1, p4.1), p4.2)

/-- re.findall's scan: try the pattern at each position, and after a match
resume at its end.  The fuel starts at the text's length; every match consumes
at least its nonempty literal, so the fuel never runs out before the text. -/
def scanAllAux (p : List Char → Option ((ℕ × ℚ) × List Char)) :
    ℕ → List Char → List (ℕ × ℚ)
  | 0, _ => []
  | _, [] => []
  | fuel + 1, c :: cs =>
    match p (c :: cs) with
    | some (a, rest) => a :: scanAllAux p fuel rest
    | none => scanAllAux p fuel cs

/-- All matches of a pattern over a text, leftmost first. -/
def scanAll (p : List Char → Option ((ℕ × ℚ) × List Char)) (cs : List Char) :
    List (ℕ × ℚ) := scanAllAux p cs.length cs

/-- Python dict assignment d[k] = v over an association list: a later match
for the same index overwrites the earlier value. -/
def dictInsert (m : List (ℕ × ℚ)) (kv : ℕ × ℚ) : List (ℕ × ℚ) :=
  if m.any (fun e => e.1 == kv.1)
  then m.map fun e => if e.1 == kv.1 then kv else e
  else m ++ [kv]

/-- The dict built from a findall result by the loops of functions.py. -/
def toDict (l : List (ℕ × ℚ)) : List (ℕ × ℚ) := l.foldl dictInsert []

/-- functions.py extract_information (lines 5-35): read the file and build the
per-UE generated/received throughput dicts; on FileNotFoundError print a
message and return (None, None) - the exception is swallowed, not re-raised. -/
def extract_information (fs : String → Option String) (file_path : String) :
    Option (List (ℕ × ℚ)) × Option (List (ℕ × ℚ)) :=
  match fs file_path with
  | some data =>
    let ue_received := toDict (scanAll matchUEReceived data.toList)
    let ue_generated := toDict (scanAll matchServerGenerated data.toList)
    (some ue_generated, some ue_received)
  | none => (none, none)

end functions

/-! ## Helper lemmas -/

/-- The accumulation loop of agg_metric collects exactly the values of the
matching records, in order. -/
theorem agg_fold (cand : List String) (records : List results.ScalarRecord) :
    ∀ acc : List PyVal,
      records.foldl
        (fun acc r => if results.matchCond cand r then acc ++ [r.value] else acc) acc
        = acc ++ (records.filter (results.matchCond cand)).map (fun r => r.value) := by
  induction records with
  | nil => intro acc; simp
  | cons a t ih =>
    intro acc
    by_cases h : results.matchCond cand a
    · simp [List.filter_cons, h, ih]
    · simp [List.filter_cons, h, ih]

/-- The loop's membership test over lowered candidates coincides with the
spec's equals-or-contains test. -/
theorem matchCond_eq_spec (cands : List String) (r : results.ScalarRecord) :
    results.matchCond (cands.map pyLower) r = results.specFamilyMatches r.name cands := by
  unfold results.matchCond results.specFamilyMatches
  generalize pyLower r.name = n
  induction cands with
  | nil => simp
  | cons c t ih =>
    simp only [List.map_cons, List.contains_cons, List.any_cons]
    cases h1 : n == pyLower c
    · cases h2 : pyIn (pyLower c) n
      · simp [h1, h2, ← ih]
      · simp [h1, h2]
    · simp [h1]

/-- 10^(-3) as a real power. -/
theorem ten_rpow_neg_three : (10 : ℝ) ^ (-3 : ℝ) = 1e-3 := by
  rw [show (-3 : ℝ) = -((3 : ℕ) : ℝ) by norm_num,
    Real.rpow_neg (by norm_num : (0 : ℝ) ≤ 10), Real.rpow_natCast]
  norm_num

/-- The two dBm-to-watts formulas of the scripts agree for every real d. -/
theorem dbm_variant_eq (d : ℝ) :
    (10 : ℝ) ^ (d / 10) * 1e-3 = (10 : ℝ) ^ ((d - 30) / 10) := by
  rw [show (d - 30) / 10 = d / 10 + (-3 : ℝ) by ring,
    Real.rpow_add (by norm_num : (0 : ℝ) < 10), ten_rpow_neg_three]

/-- Value of the conversion at 0 dBm. -/
theorem analisar_dbw_zero : analisar.dbm_to_watts 0 = 0.001 := by
  unfold analisar.dbm_to_watts
  rw [show ((0 : ℝ) - 30) / 10 = -((3 : ℕ) : ℝ) by norm_num,
    Real.rpow_neg (by norm_num : (0 : ℝ) ≤ 10), Real.rpow_natCast]
  norm_num

/-- Value of the conversion at 30 dBm. -/
theorem analisar_dbw_thirty : analisar.dbm_to_watts 30 = 1 := by
  unfold analisar.dbm_to_watts
  rw [show ((30 : ℝ) - 30) / 10 = (0 : ℝ) by norm_num, Real.rpow_zero]

/-- Value of the conversion at 40 dBm. -/
theorem analisar_dbw_forty : analisar.dbm_to_watts 40 = 10 := by
  unfold analisar.dbm_to_watts
  rw [show ((40 : ℝ) - 30) / 10 = (1 : ℝ) by norm_num, Real.rpow_one]

/-- Value of the conversion at 50 dBm. -/
theorem analisar_dbw_fifty : analisar.dbm_to_watts 50 = 100 := by
  unfold analisar.dbm_to_watts
  rw [show ((50 : ℝ) - 30) / 10 = ((2 : ℕ) : ℝ) by norm_num, Real.rpow_natCast]
  norm_num

/-- Strict monotonicity of analisar_sca.py's conversion. -/
theorem analisar_dbm_strictMono {d1 d2 : ℝ} (h : d1 < d2) :
    analisar.dbm_to_watts d1 < analisar.dbm_to_watts d2 := by
  unfold analisar.dbm_to_watts
  exact (Real.rpow_lt_rpow_left_iff (by norm_num)).mpr (by linarith)

/-- Strict monotonicity of calculate.py's conversion. -/
theorem calculate_dbm_strictMono {d1 d2 : ℝ} (h : d1 < d2) :
    calculate.dbm_to_watts d1 < calculate.dbm_to_watts d2 := by
  unfold calculate.dbm_to_watts
  have hlt : (10 : ℝ) ^ (d1 / 10) < (10 : ℝ) ^ (d2 / 10) :=
    (Real.rpow_lt_rpow_left_iff (by norm_num)).mpr (by linarith)
  exact mul_lt_mul_of_pos_right hlt (by norm_num)

/-- Sum of a list bounded above termwise. -/
theorem list_sum_le_length_mul (l : List ℚ) (hi : ℚ) (h : ∀ x ∈ l, x ≤ hi) :
    l.sum ≤ l.length * hi := by
  induction l with
  | nil => simp
  | cons a t ih =>
    simp only [List.sum_cons, List.length_cons]
    have ha := h a (by simp)
    have ht := ih fun x hx => h x (by simp [hx])
    push_cast
    linarith

/-- Sum of a list bounded below termwise. -/
theorem length_mul_le_list_sum (l : List ℚ) (lo : ℚ) (h : ∀ x ∈ l, lo ≤ x) :
    l.length * lo ≤ l.sum := by
  induction l with
  | nil => simp
  | cons a t ih =>
    simp only [List.sum_cons, List.length_cons]
    have ha := h a (by simp)
    have ht := ih fun x hx => h x (by simp [hx])
    push_cast
    linarith

/-! ## Claim theorems -/

/-- C9: a record's value is included in a family's aggregate exactly when its
lowered name equals or contains a lowered alias; the aggregate is the mean
over that matching subset, computed by each agg_metric call independently of
any other family; and a family with no matching record yields none, never a
fabricated zero. -/
theorem agg_metric_family_membership :
    ∀ (records : List results.ScalarRecord) (cands : List String),
      results.agg_metric records cands =
        (if ((records.filter fun r => results.specFamilyMatches r.name cands).map
              (fun r => r.value)).isEmpty
         then none
         else some (pyDivNat
           (pySum ((records.filter fun r => results.specFamilyMatches r.name cands).map
             (fun r => r.value)))
           ((records.filter fun r => results.specFamilyMatches r.name cands).map
             (fun r => r.value)).length))
      ∧ (results.agg_metric records cands = none
          ↔ ∀ r ∈ records, results.specFamilyMatches r.name cands = false) := by
  intro records cands
  have hfilter : records.filter (results.matchCond (cands.map pyLower))
      = records.filter fun r => results.specFamilyMatches r.name cands := by
    apply List.filter_congr
    intro r _
    exact matchCond_eq_spec cands r
  have h1 : results.agg_metric records cands =
      (if ((records.filter fun r => results.specFamilyMatches r.name cands).map
            (fun r => r.value)).isEmpty
       then none
       else some (pyDivNat
         (pySum ((records.filter fun r => results.specFamilyMatches r.name cands).map
           (fun r => r.value)))
         ((records.filter fun r => results.specFamilyMatches r.name cands).map
           (fun r => r.value)).length)) := by
    simp only [results.agg_metric]
    rw [agg_fold (cands.map pyLower) records [], List.nil_append, hfilter]
  refine ⟨h1, ?_⟩
  rw [h1]
  by_cases he : ((records.filter fun r => results.specFamilyMatches r.name cands).map
      (fun r => r.value)).isEmpty
  · simp only [he, if_pos]
    simp only [List.isEmpty_iff, List.map_eq_nil_iff, List.filter_eq_nil_iff] at he
    simp only [true_iff]
    intro r hr
    exact Bool.not_eq_true _ |>.mp (he r hr)
  · simp only [he, if_neg, Bool.false_eq_true, not_false_iff]
    simp only [List.isEmpty_iff, List.map_eq_nil_iff, List.filter_eq_nil_iff] at he
    constructor
    · intro hc; exact absurd hc (by simp)
    · intro hall
      exact absurd (fun r hr => by simp [hall r hr]) he

/-- C1 (amended): a line recognized as a scalar line whose numeric value token
fails Python's float() is dropped: the ValueError is caught and the loop
continues, so no ScalarRecord (and in particular no NaN-valued record) is
produced for that line, and nothing is raised. -/
theorem parse_sca_drops_unparsable_value :
    ∀ (line m n v : String) (u : Option String),
      pyStartsWith line "scalar" = true →
      results.scalarMatch (pyStrip line) = some (m, n, v, u) →
      pyFloat v = none →
      results.parse_sca_lines [line] = [] := by
  intro line m n v u h1 h2 h3
  simp [results.parse_sca_lines, results.parseScaLine, h1, h2, h3]

/-- C1 witness: the scalar line "scalar A B eee" at a concrete run. -/
theorem parse_sca_drops_unparsable_value_witness :
    results.parse_sca_lines ["scalar A B eee"] = [] :=
  parse_sca_drops_unparsable_value "scalar A B eee" "A" "B" "eee" none
    (by decide) (by decide) (by decide)

/-- C1 counterexample: the line "scalar A B eee" is recognized by the scalar
grammar (module "A" and name "B" are captured, the value token is "eee",
which float() rejects), yet the parser's output is empty - the record is
dropped, not kept with value NaN as the claim states. -/
theorem parse_sca_drop_example :
    results.scalarMatch (pyStrip "scalar A B eee") = some ("A", "B", "eee", none)
    ∧ results.parse_sca_lines ["scalar A B eee"] = [] := by
  constructor
  · decide
  · decide

/-- C8 (amended): on a nonexistent file, results.py's parse_sca_file fails
loudly with FileNotFoundError, while functions.py's extract_information
catches the exception, prints a message and returns the null pair
(None, None) instead of raising. -/
theorem missing_file_behavior :
    ∀ (fs : String → Option String) (path : String),
      fs path = none →
      results.parse_sca_file fs path = Except.error "FileNotFoundError"
      ∧ functions.extract_information fs path = (none, none) := by
  intro fs path h
  constructor
  · simp [results.parse_sca_file, h]
  · simp [functions.extract_information, h]

/-- C8 witness: the empty file system at a concrete path. -/
theorem missing_file_behavior_witness :
    results.parse_sca_file (fun _ => none) "missing.sca"
        = Except.error "FileNotFoundError"
    ∧ functions.extract_information (fun _ => none) "missing.sca" = (none, none) :=
  missing_file_behavior (fun _ => none) "missing.sca" rfl

/-- C8 counterexample: asked for a nonexistent file, extract_information
returns the null result (None, None); no error is raised or returned, which
falsifies the claim that the parser raises rather than silently returning an
empty or null result. -/
theorem extract_information_swallows_missing :
    functions.extract_information (fun _ => none) "results/Toy1/6dBm-0.sca"
      = (none, none) := rfl

/-- C3: all three dbm_to_watts functions compute 10^((d-30)/10) for every real
d - analisar_sca.py writes the formula directly, results.py and calculate.py
use the algebraically identical 10^(d/10)*1e-3 - and the conversion sends
0 dBm to 0.001 W, 30 dBm to 1 W and 40 dBm to 10 W. -/
theorem dbm_to_watts_formula :
    (∀ d : ℝ, analisar.dbm_to_watts d = (10 : ℝ) ^ ((d - 30) / 10))
    ∧ (∀ d : ℝ, results.dbm_to_watts d = analisar.dbm_to_watts d)
    ∧ (∀ d : ℝ, calculate.dbm_to_watts d = analisar.dbm_to_watts d)
    ∧ analisar.dbm_to_watts 0 = 0.001
    ∧ analisar.dbm_to_watts 30 = 1
    ∧ analisar.dbm_to_watts 40 = 10 := by
  refine ⟨fun d => rfl, fun d => dbm_variant_eq d, fun d => dbm_variant_eq d,
    analisar_dbw_zero, analisar_dbw_thirty, analisar_dbw_forty⟩

/-- C4 (amended): analisar_sca.py's safe_mean is computed over the finite
values only (the _finite filter drops NaN and the infinities); when no finite
value remains it returns its default instead of a NaN; and over a non-empty
finite set the mean lies between every lower and every upper bound of the set,
in particular between its minimum and maximum.  results.py's agg_metric,
however, applies no finiteness filter (see the counterexample). -/
theorem safe_mean_finite_bounds :
    ∀ (l : List PyVal) (d : ℚ),
      (analisar.finiteVals l = [] → analisar.safe_mean l d = d)
      ∧ (∀ lo hi : ℚ, analisar.finiteVals l ≠ [] →
          (∀ x ∈ analisar.finiteVals l, lo ≤ x ∧ x ≤ hi) →
          lo ≤ analisar.safe_mean l d ∧ analisar.safe_mean l d ≤ hi) := by
  intro l d
  constructor
  · intro h
    simp [analisar.safe_mean, h]
  · intro lo hi hne hb
    have hlen : 0 < (analisar.finiteVals l).length := List.length_pos.mpr hne
    have hlenQ : (0 : ℚ) < ((analisar.finiteVals l).length : ℚ) := by
      exact_mod_cast hlen
    have hmean : analisar.safe_mean l d
        = (analisar.finiteVals l).sum / ((analisar.finiteVals l).length : ℚ) := by
      simp [analisar.safe_mean, List.isEmpty_iff, hne]
    rw [hmean]
    constructor
    · rw [le_div_iff₀ hlenQ]
      have := length_mul_le_list_sum (analisar.finiteVals l) lo
        (fun x hx => (hb x hx).1)
      linarith
    · rw [div_le_iff₀ hlenQ]
      have := list_sum_le_length_mul (analisar.finiteVals l) hi
        (fun x hx => (hb x hx).2)
      linarith

/-- C4 witness: the list [1, inf, 3] at a concrete run: the mean of the finite
values lies between 1 and 3. -/
theorem safe_mean_finite_bounds_witness :
    (1 : ℚ) ≤ analisar.safe_mean [PyVal.fin 1, PyVal.pinf, PyVal.fin 3] 0
    ∧ analisar.safe_mean [PyVal.fin 1, PyVal.pinf, PyVal.fin 3] 0 ≤ 3 :=
  (safe_mean_finite_bounds [PyVal.fin 1, PyVal.pinf, PyVal.fin 3] 0).2 1 3
    (by decide) (by decide)

/-- C4 counterexample: the scalar line "scalar m x 9e400" parses to a record
whose value is positive infinity (Python's float() overflows to inf without
raising), and agg_metric averages it without any finiteness filter: the
aggregate over an input with zero finite values is some(+inf) - a non-finite
statistic, neither the default 0.0 nor an absent value, falsifying the claim
that every aggregate is computed over finite values only. -/
theorem agg_metric_propagates_inf :
    results.agg_metric (results.parse_sca_lines ["scalar m x 9e400"]) ["x"]
      = some PyVal.pinf
    ∧ PyVal.pinf.isFinite = false := by
  constructor
  · decide
  · decide

/-- C5 (amended): P_tx_W is strictly increasing in the dBm value; with a
positive coupling coefficient gamma the total power of
compute_power_energy_eff strictly increases with transmit power provided no
min/max power clamp is configured (a configured max clamp can saturate both
powers to the same cap - see the counterexample); and energy_components in
its constant-coefficient variant is likewise strictly increasing when
gamma is positive. -/
theorem energy_monotone_in_power :
    (∀ d1 d2 : ℝ, d1 < d2 → analisar.dbm_to_watts d1 < analisar.dbm_to_watts d2)
    ∧ (∀ (cfg : analisar.EnergyCfg) (proc ue thp : Option ℝ) (d1 d2 : ℝ),
        cfg.min_power_w = none → cfg.max_power_w = none → 0 < cfg.gamma →
        d1 < d2 →
        (analisar.compute_power_energy_eff (some d1) proc ue thp cfg).P_tot_W
          < (analisar.compute_power_energy_eff (some d2) proc ue thp cfg).P_tot_W)
    ∧ (∀ (scn : calculate.Scenario) (d1 d2 : ℝ),
        scn.uses_extended = false → 0 < scn.gamma → d1 < d2 →
        (calculate.energy_components scn d1).P_gnb
          < (calculate.energy_components scn d2).P_gnb) := by
  refine ⟨fun d1 d2 h => analisar_dbm_strictMono h, ?_, ?_⟩
  · intro cfg proc ue thp d1 d2 hmin hmax hg h
    have hw := analisar_dbm_strictMono h
    have hmul := mul_lt_mul_of_pos_left hw hg
    simp only [analisar.compute_power_energy_eff, hmin, hmax, Option.getD_some]
    linarith
  · intro scn d1 d2 hext hg h
    have hw := calculate_dbm_strictMono h
    have hmul := mul_lt_mul_of_pos_left hw hg
    simp only [calculate.energy_components, hext, Bool.false_eq_true, if_false]
    linarith

/-- C5 witness: concrete monotone step from 0 dBm to 10 dBm with gamma 1 and
no clamp. -/
theorem energy_monotone_in_power_witness :
    (analisar.compute_power_energy_eff (some 0) none none none
        ⟨0, 0, 0, 1, 20, 10, none, none⟩).P_tot_W
      < (analisar.compute_power_energy_eff (some 10) none none none
        ⟨0, 0, 0, 1, 20, 10, none, none⟩).P_tot_W :=
  energy_monotone_in_power.2.1 ⟨0, 0, 0, 1, 20, 10, none, none⟩ none none none
    0 10 rfl rfl (by norm_num) (by norm_num)

/-- C5 counterexample: with gamma = 1 > 0 and a configured max_power_w clamp
of 5 W, P_tx_W strictly increases from 40 dBm to 50 dBm, yet the resulting
total power is the same at both (saturated at the cap), falsifying the
claimed strict increase of P_avg for every pair of dBm values. -/
theorem energy_monotone_clamped_cex :
    analisar.dbm_to_watts 40 < analisar.dbm_to_watts 50
    ∧ (analisar.compute_power_energy_eff (some 40) none none none
        ⟨0, 0, 0, 1, 20, 10, none, some 5⟩).P_tot_W
      = (analisar.compute_power_energy_eff (some 50) none none none
        ⟨0, 0, 0, 1, 20, 10, none, some 5⟩).P_tot_W := by
  constructor
  · rw [analisar_dbw_forty, analisar_dbw_fifty]; norm_num
  · simp only [analisar.compute_power_energy_eff, Option.getD_some, Option.getD_none,
      analisar_dbw_forty, analisar_dbw_fifty]
    rw [show (0 : ℝ) + 0 * 0 + 0 * 0 + 1 * 10 = 10 by ring,
      show (0 : ℝ) + 0 * 0 + 0 * 0 + 1 * 100 = 100 by ring,
      min_eq_right (by norm_num : (5 : ℝ) ≤ 10),
      min_eq_right (by norm_num : (5 : ℝ) ≤ 100)]

/-- C6 (amended): analisar_sca.py's efficiency equals the throughput divided
by max(P_tot_W, 1e-12), and that floored denominator is strictly positive for
every input, including pathological coefficients making P_tot_W zero or
negative.  results.py's efficiency column, however, divides by E_total with
no floor (see the counterexample). -/
theorem efficiency_floor_guard :
    ∀ (p proc ue thp : Option ℝ) (cfg : analisar.EnergyCfg),
      (analisar.compute_power_energy_eff p proc ue thp cfg).eff_mbps_per_joule
        = thp.getD 0
          / max (analisar.compute_power_energy_eff p proc ue thp cfg).P_tot_W 1e-12
      ∧ 0 < max (analisar.compute_power_energy_eff p proc ue thp cfg).P_tot_W 1e-12 := by
  intro p proc ue thp cfg
  exact ⟨rfl, lt_of_lt_of_le (by norm_num) (le_max_right _ _)⟩

/-- C6 counterexample: under the all-zero calibration the total energy
returned by gnb_power_energy is exactly 0, and results.py's
EE_throughput_per_J divides the throughput by this unfloored zero
denominator - there is no small positive floor in that script, falsifying
the claim for the results.py efficiency computation it cites. -/
theorem efficiency_results_zero_denominator :
    (results.gnb_power_energy 0 0 0 20 ⟨0, 0, 0, 0, 0, 0⟩).2 = 0 := by
  simp [results.gnb_power_energy]

/-- C7: the coefficient-variant selection of calculate.py is all-or-nothing:
uses_extended holds exactly when all six extended fields are supplied; when
any is missing every coefficient takes its constant value, and when all are
present every coefficient is base + slope * P_tx_W. -/
theorem uses_extended_all_or_nothing :
    ∀ (scn : calculate.Scenario) (p : ℝ),
      (scn.uses_extended = true ↔
        (scn.Pidle_base ≠ none ∧ scn.k_idle ≠ none ∧ scn.alpha_base ≠ none
          ∧ scn.k_alpha ≠ none ∧ scn.beta_base ≠ none ∧ scn.k_beta ≠ none))
      ∧ (scn.uses_extended = false →
          (calculate.energy_components scn p).P_idle = scn.P_idle
          ∧ (calculate.energy_components scn p).P_proc = scn.alpha * scn.D_proc
          ∧ (calculate.energy_components scn p).P_ue
              = scn.beta * ((scn.N_UE : ℤ) : ℝ))
      ∧ (scn.uses_extended = true →
          (calculate.energy_components scn p).P_idle
            = scn.Pidle_base.getD 0 + scn.k_idle.getD 0 * calculate.dbm_to_watts p
          ∧ (calculate.energy_components scn p).P_proc
            = (scn.alpha_base.getD 0 + scn.k_alpha.getD 0 * calculate.dbm_to_watts p)
                * scn.D_proc
          ∧ (calculate.energy_components scn p).P_ue
            = (scn.beta_base.getD 0 + scn.k_beta.getD 0 * calculate.dbm_to_watts p)
                * ((scn.N_UE : ℤ) : ℝ)) := by
  intro scn p
  refine ⟨?_, ?_, ?_⟩
  · simp [calculate.Scenario.uses_extended, Bool.and_eq_true, Option.isSome_iff_ne_none,
      and_assoc]
  · intro h
    refine ⟨?_, ?_, ?_⟩ <;> simp [calculate.energy_components, h]
  · intro h
    refine ⟨?_, ?_, ?_⟩ <;> simp [calculate.energy_components, h]

/-- C7 witness: the two example scenarios of calculate.py - Configuracao 1
(constant variant, every extended field none) takes its constant idle power,
and Configuracao 2 (all six extended fields supplied) takes the affine one. -/
theorem uses_extended_all_or_nothing_witness :
    (calculate.energy_components
        ⟨"Configuracao 1", 50, 10, 20, [], [], 1, 100, 0.05, 0.5,
          none, none, none, none, none, none⟩ 26).P_idle = 100
    ∧ (calculate.energy_components
        ⟨"Configuracao 2", 60, 12, 20, [], [], 1, 100, 0.05, 0.5,
          some 90, some 0.5, some 0.04, some 0.0001, some 0.30, some 0.005⟩ 26).P_idle
      = 90 + 0.5 * calculate.dbm_to_watts 26 := by
  constructor
  · exact ((uses_extended_all_or_nothing
      ⟨"Configuracao 1", 50, 10, 20, [], [], 1, 100, 0.05, 0.5,
        none, none, none, none, none, none⟩ 26).2.1 rfl).1
  · exact ((uses_extended_all_or_nothing
      ⟨"Configuracao 2", 60, 12, 20, [], [], 1, 100, 0.05, 0.5,
        some 90, some 0.5, some 0.04, some 0.0001, some 0.30, some 0.005⟩ 26).2.2 rfl).1

/-- C10: for every calibration with nonnegative coefficients, nonnegative
processing demand and user count, any real transmit power and any duration,
gnb_power_energy returns an average power at least P_idle_base and a total
energy exactly P_avg * tsim; with a positive idle base and positive duration
the energy is strictly positive (the default calibration has base 80 W). -/
theorem gnb_power_energy_bounds :
    ∀ (calib : results.EnergyCalib) (dproc : ℝ) (n : ℤ) (d tsim : ℝ),
      0 ≤ calib.P_idle_base → 0 ≤ calib.k_idle → 0 ≤ calib.alpha_base →
      0 ≤ calib.k_alpha → 0 ≤ calib.beta_base → 0 ≤ calib.k_beta →
      0 ≤ dproc → 0 ≤ n →
      calib.P_idle_base ≤ (results.gnb_power_energy d dproc n tsim calib).1
      ∧ (results.gnb_power_energy d dproc n tsim calib).2
          = (results.gnb_power_energy d dproc n tsim calib).1 * tsim
      ∧ (0 < calib.P_idle_base → 0 < tsim →
          0 < (results.gnb_power_energy d dproc n tsim calib).2) := by
  intro calib dproc n d tsim h1 h2 h3 h4 h5 h6 h7 h8
  have hw : 0 < results.dbm_to_watts d := by
    unfold results.dbm_to_watts
    positivity
  have hn : (0 : ℝ) ≤ ((n : ℤ) : ℝ) := by exact_mod_cast h8
  have hP : calib.P_idle_base ≤ (results.gnb_power_energy d dproc n tsim calib).1 := by
    show calib.P_idle_base ≤
      (calib.P_idle_base + calib.k_idle * results.dbm_to_watts d)
        + (calib.alpha_base + calib.k_alpha * results.dbm_to_watts d) * dproc
        + (calib.beta_base + calib.k_beta * results.dbm_to_watts d) * ((n : ℤ) : ℝ)
    nlinarith [mul_nonneg h2 hw.le,
      mul_nonneg (add_nonneg h3 (mul_nonneg h4 hw.le)) h7,
      mul_nonneg (add_nonneg h5 (mul_nonneg h6 hw.le)) hn]
  have hE : (results.gnb_power_energy d dproc n tsim calib).2
      = (results.gnb_power_energy d dproc n tsim calib).1 * tsim := rfl
  refine ⟨hP, hE, fun hpb ht => ?_⟩
  rw [hE]
  exact mul_pos (lt_of_lt_of_le hpb hP) ht

/-- C10 witness: the default calibration of results.py at 26 dBm, zero demand
and zero users over 20 s. -/
theorem gnb_power_energy_bounds_witness :
    (80 : ℝ) ≤ (results.gnb_power_energy 26 0 0 20
        ⟨80, 0.5, 0.04, 0.0001, 0.3, 0.005⟩).1
    ∧ 0 < (results.gnb_power_energy 26 0 0 20
        ⟨80, 0.5, 0.04, 0.0001, 0.3, 0.005⟩).2 := by
  have h := gnb_power_energy_bounds ⟨80, 0.5, 0.04, 0.0001, 0.3, 0.005⟩ 0 0 26 20
    (by norm_num) (by norm_num) (by norm_num) (by norm_num) (by norm_num)
    (by norm_num) (by norm_num) (by norm_num)
  exact ⟨h.1, h.2.2 (by norm_num) (by norm_num)⟩

/-- C2 (amended): the key-derivation priority of infer_power_dbm: a tx-power
scalar aggregated from the records wins over any filename or directory
pattern, with the heuristic that a value above 1.0 is treated as watts and
converted to dBm by watts_to_dbm; only when no tx-power scalar exists is the
path consulted, by the leftmost REGEX_POT_IN_PATH match over the whole path
string (directories included). -/
theorem infer_power_priority :
    ∀ (path : String) (records : List results.ScalarRecord),
      (∀ tx : ℚ,
        results.agg_metric records results.ALIASES_tx_power = some (PyVal.fin tx) →
        results.infer_power_dbm path records
          = some (if 1 < tx then results.watts_to_dbm tx else ((tx : ℚ) : ℝ)))
      ∧ (results.agg_metric records results.ALIASES_tx_power = none →
          results.infer_power_dbm path records
            = (results.pot_in_path path).map fun n => ((n : ℕ) : ℝ)) := by
  intro path records
  constructor
  · intro tx h
    simp [results.infer_power_dbm, h]
  · intro h
    simp [results.infer_power_dbm, h]

/-- C2 witness: a file declaring a tx-power scalar of 26 whose name contains
Pot40: the record aggregate wins and is converted (26 > 1.0). -/
theorem infer_power_priority_witness :
    results.infer_power_dbm "run_Pot40.sca" [⟨"gnb", "txPower", PyVal.fin 26, none⟩]
      = some (results.watts_to_dbm 26) := by
  have h := (infer_power_priority "run_Pot40.sca"
    [⟨"gnb", "txPower", PyVal.fin 26, none⟩]).1 26 (by decide)
  rwa [if_pos (by norm_num)] at h

/-- C2 counterexample: for a file declaring the power attribute txPower = 26
with a filename containing Pot40, the claim requires the resolved key to be
26; the code instead applies the above-1.0 watts heuristic and returns
watts_to_dbm 26 = 10*log10(26/0.001), which is strictly greater than 26
(it exceeds 40), so the resolved grouping key is not 26. -/
theorem infer_power_attr26_not_26 :
    results.infer_power_dbm "run_Pot40.sca" [⟨"gnb", "txPower", PyVal.fin 26, none⟩]
      = some (results.watts_to_dbm 26)
    ∧ 26 < results.watts_to_dbm 26 := by
  constructor
  · have hagg : results.agg_metric [⟨"gnb", "txPower", PyVal.fin 26, none⟩]
        results.ALIASES_tx_power = some (PyVal.fin 26) := by decide
    simp only [results.infer_power_dbm, hagg]
    rw [if_pos (by norm_num)]
  · unfold results.watts_to_dbm
    rw [show max (((26 : ℚ) : ℝ)) 1e-12 / 1e-3 = 26000 by
      rw [max_eq_left (by push_cast; norm_num)]; push_cast; norm_num]
    have h4 : Real.logb 10 ((10 : ℝ) ^ ((4 : ℕ) : ℝ)) = ((4 : ℕ) : ℝ) :=
      Real.logb_rpow (by norm_num) (by norm_num)
    have hstep : Real.logb 10 ((10 : ℝ) ^ ((4 : ℕ) : ℝ)) ≤ Real.logb 10 26000 := by
      apply Real.logb_le_logb_of_le (by norm_num) (by positivity)
      rw [Real.rpow_natCast]; norm_num
    rw [h4] at hstep
    push_cast at hstep
    linarith
